import Mathlib

/-!
Shallow embedding of the `CopyField` component of `genologics/epp.py` and of
the per-sample concentration handling of `scripts/copy_qubit.py`.

Python values that flow through the copy logic are modelled by `Val`
(Python `None`, strings, numbers); LIMS entities by `Entity`, whose UDF
mapping is an association list.  The method `CopyField._get_field` of the
source reads `elt.udf[field]` when the key is present and otherwise
evaluates the attribute access `elt.field` (the attribute literally named
"field") under a bare `except` that yields `None`; `Entity.fieldAttr`
models that attribute (absent = `AttributeError`).

Side effects (field reads, UDF writes, `put()` calls, changelog appends,
`logging.info` records, stderr prints) are made explicit as an `Event`
trace, and `sys.exit(-1)` as the `Outcome.exited` result.  The success or
failure of `elt.put()` is an environment parameter `PutResult` of
`copy_udf`, mirroring the `try ... except (TypeError, HTTPError)` of
`CopyField._set_udf`.
-/

namespace Genologics

/-- A Python value as it appears in this code: `None`, a string, or a number. -/
inductive Val where
  | pyNone : Val
  | str : String → Val
  | num : ℚ → Val
  deriving DecidableEq, Repr

/-- Python `str()` of a value, as used by `.format` in the log strings. -/
def Val.pyStr : Val → String
  | Val.pyNone => "None"
  | Val.str s => s
  | Val.num q => toString q

/-- A LIMS entity: id, human-readable name, `_URI` type tag, the attribute
literally named `field` when the object happens to have one, and the UDF
mapping `elt.udf` as an association list. -/
structure Entity where
  id : String
  name : String
  uri : String
  fieldAttr : Option Val
  udf : List (String × Val)
  deriving DecidableEq, Repr

/-- Python dict assignment `u[k] = v` on the UDF mapping. -/
def udfSet (u : List (String × Val)) (k : String) (v : Val) : List (String × Val) :=
  (k, v) :: u.eraseP (fun p => p.1 == k)

/-- A broken-down local time, the argument of `strftime`. -/
structure Tm where
  year : Nat
  mon : Nat
  mday : Nat
  hour : Nat
  min : Nat
  sec : Nat
  deriving DecidableEq, Repr

/-- Zero padding to two digits, as `%m %d %H %M %S` of `strftime` do. -/
def pad2 (n : Nat) : String :=
  if n < 10 then "0" ++ toString n else toString n

/-- The rendering of the format string of `CopyField._current_time`. -/
def strftimeYmdHMS (t : Tm) : String :=
  toString t.year ++ "-" ++ pad2 t.mon ++ "-" ++ pad2 t.mday ++ " " ++
    pad2 t.hour ++ ":" ++ pad2 t.min ++ ":" ++ pad2 t.sec

/-- An observable side effect of the copy logic. -/
inductive Event where
  | readField (entityId : String) (field : String)
  | writeUdf (entityId : String) (field : String) (v : Val)
  | put (entityId : String)
  | changelog (line : String)
  | logInfo (msg : String)
  | stderrLine (msg : String)
  deriving DecidableEq, Repr

/-- Whether an event is a field read (`CopyField._get_field`). -/
def Event.isRead : Event → Bool
  | Event.readField _ _ => true
  | _ => false

/-- Whether an event is a persist call (`elt.put()`). -/
def Event.isPut : Event → Bool
  | Event.put _ => true
  | _ => false

/-- Whether an event is a changelog append. -/
def Event.isChangelog : Event → Bool
  | Event.changelog _ => true
  | _ => false

/-- The environment's answer to the `try` block of `CopyField._set_udf`:
`elt.put()` succeeds, or raises `TypeError`, or raises `HTTPError`. -/
inductive PutResult where
  | ok : PutResult
  | typeError (msg : String) : PutResult
  | httpError (msg : String) : PutResult
  deriving DecidableEq, Repr

/-- How a call ends: a Python return value, or process termination by
`sys.exit`. -/
inductive Outcome where
  | ret (b : Bool) : Outcome
  | exited (code : Int) : Outcome
  deriving DecidableEq, Repr

/-- The state of a `CopyField` instance after `__init__`: the constructor
arguments plus the two construction-time snapshots `s_field` and
`old_dest_udf`. -/
structure CopyField where
  s_elt : Entity
  d_elt : Entity
  s_field_name : String
  d_udf_name : String
  s_field : Val
  old_dest_udf : Val
  deriving DecidableEq, Repr

/-- `CopyField._get_field`: return `elt.udf[field]` when the key is in the
UDF mapping, else evaluate `elt.field` — the attribute literally named
"field" — returning `None` when that raises. -/
def CopyField.get_field (elt : Entity) (field : String) : Val :=
  match elt.udf.lookup field with
  | Option.some v => v
  | Option.none =>
    match elt.fieldAttr with
    | Option.some v => v
    | Option.none => Val.pyNone

/-- Python truthiness test `if not d_udf_name: d_udf_name = s_field_name`
of `CopyField.__init__`: `None` and the empty string both default. -/
def resolveDUdfName (s_field_name : String) (d_udf_name : Option String) : String :=
  match d_udf_name with
  | Option.none => s_field_name
  | Option.some s => if s = "" then s_field_name else s

/-- `CopyField.__init__`: resolve the destination udf name, snapshot the
source field and the prior destination value. -/
def CopyField.init (s_elt d_elt : Entity) (s_field_name : String)
    (d_udf_name : Option String) : CopyField :=
  CopyField.mk s_elt d_elt s_field_name (resolveDUdfName s_field_name d_udf_name)
    (CopyField.get_field s_elt s_field_name)
    (CopyField.get_field d_elt (resolveDUdfName s_field_name d_udf_name))

/-- The side effects of `CopyField.__init__`: the two `_get_field` reads,
in source order, and nothing else. -/
def CopyField.initTrace (s_elt d_elt : Entity) (s_field_name : String)
    (d_udf_name : Option String) : List Event :=
  [Event.readField s_elt.id s_field_name,
   Event.readField d_elt.id (resolveDUdfName s_field_name d_udf_name)]

/-- `CopyField._current_time`: `strftime("%Y-%m-%d %H:%M:%S", localtime())`
with the local time passed explicitly. -/
def CopyField.current_time (now : Tm) : String :=
  strftimeYmdHMS now

/-- The changelog line written by `CopyField._log_before_change`. -/
def CopyField.changelogLine (cf : CopyField) (ct : String) : String :=
  ct ++ ": udf: " ++ cf.s_field_name ++ " on " ++ cf.d_elt.name ++
    " (id: " ++ cf.d_elt.id ++ ") from " ++ cf.old_dest_udf.pyStr ++
    " to " ++ cf.s_field.pyStr ++ ".\n"

/-- The `logging.info` message of `CopyField._log_before_change` (the two
concatenated source string literals carry a double space before `id:`). -/
def CopyField.copyingMsg (cf : CopyField) : String :=
  "Copying from element with id: " ++ cf.s_elt.id ++ " to sample with  id: " ++
    cf.d_elt.id

/-- The `logging.info` message of `CopyField._log_after_change`. -/
def CopyField.updatedMsg (cf : CopyField) : String :=
  "Updated " ++ cf.d_elt.uri ++ " udf: " ++ cf.d_udf_name ++ ", from " ++
    cf.old_dest_udf.pyStr ++ " to " ++ cf.s_field.pyStr ++ "."

/-- `CopyField._log_before_change`: optional changelog append, then the
informational record.  Returns the appended lines and the event trace. -/
def CopyField.log_before_change (cf : CopyField) (changelog_f : Bool) (now : Tm) :
    List String × List Event :=
  if changelog_f then
    ([cf.changelogLine (CopyField.current_time now)],
     [Event.changelog (cf.changelogLine (CopyField.current_time now)),
      Event.logInfo cf.copyingMsg])
  else
    ([], [Event.logInfo cf.copyingMsg])

/-- `CopyField._set_udf`: assign `elt.udf[udf_name] = val`, call
`elt.put()`; on `TypeError` or `HTTPError` print to stderr and
`sys.exit(-1)` (so the trailing `return False` of the source is dead
code).  Returns the outcome, the updated entity and the event trace. -/
def CopyField.set_udf (elt : Entity) (udf_name : String) (v : Val)
    (pr : PutResult) : Outcome × Entity × List Event :=
  match pr with
  | PutResult.ok =>
    (Outcome.ret true,
     { elt with udf := udfSet elt.udf udf_name v },
     [Event.writeUdf elt.id udf_name v, Event.put elt.id])
  | PutResult.typeError m =>
    (Outcome.exited (-1),
     { elt with udf := udfSet elt.udf udf_name v },
     [Event.writeUdf elt.id udf_name v, Event.put elt.id,
      Event.stderrLine ("Error while updating element: " ++ m)])
  | PutResult.httpError m =>
    (Outcome.exited (-1),
     { elt with udf := udfSet elt.udf udf_name v },
     [Event.writeUdf elt.id udf_name v, Event.put elt.id,
      Event.stderrLine ("Error while updating element: " ++ m)])

/-- The observable result of one `copy_udf` call: how it ended, the
destination entity afterwards, the changelog lines appended by this call,
and the full event trace. -/
structure CopyResult where
  outcome : Outcome
  dest : Entity
  changelogLines : List String
  events : List Event
  deriving DecidableEq, Repr

/-- `CopyField.copy_udf`: compare the two construction-time snapshots; when
they differ, log, write the destination udf, persist, log again and return
the value of `_set_udf`; otherwise return `False`.  `changelog_f` says
whether a changelog sink was passed, `now` is the local time, `pr` the
environment's behavior of `elt.put()`. -/
def CopyField.copy_udf (cf : CopyField) (changelog_f : Bool) (now : Tm)
    (pr : PutResult) : CopyResult :=
  if cf.s_field ≠ cf.old_dest_udf then
    match CopyField.set_udf cf.d_elt cf.d_udf_name cf.s_field pr with
    | (Outcome.ret b, d, ev) =>
      { outcome := Outcome.ret b
        dest := d
        changelogLines := (cf.log_before_change changelog_f now).1
        events := (cf.log_before_change changelog_f now).2 ++ ev ++
          [Event.logInfo cf.updatedMsg] }
    | (Outcome.exited c, d, ev) =>
      { outcome := Outcome.exited c
        dest := d
        changelogLines := (cf.log_before_change changelog_f now).1
        events := (cf.log_before_change changelog_f now).2 ++ ev }
  else
    { outcome := Outcome.ret false
      dest := cf.d_elt
      changelogLines := []
      events := [] }

/-- Modelled from the spec: `read_field(entity, name)` looks `name` up in
the entity's UDF mapping first; if absent there, it falls back to a
same-named native attribute on the entity (here the native attributes are
`id`, `name` and the attribute literally named `field`); if neither
exists it yields the absent sentinel.  This is the spec's reading of
`CopyField._get_field`, kept separate so it can be compared with the
source's behavior. -/
def read_field_spec (elt : Entity) (field : String) : Val :=
  match elt.udf.lookup field with
  | Option.some v => v
  | Option.none =>
    if field = "id" then Val.str elt.id
    else if field = "name" then Val.str elt.name
    else if field = "field" then
      match elt.fieldAttr with
      | Option.some v => v
      | Option.none => Val.pyNone
    else Val.pyNone

/-- The parsed `Sample Concentration` cell of the Qubit result file:
the literal string `Out Of Range`, or a numeric reading. -/
inductive Conc where
  | outOfRange : Conc
  | numVal (q : ℚ) : Conc
  deriving DecidableEq, Repr

/-- A result file artifact of `scripts/copy_qubit.py`: its qc flag and its
UDF mapping. -/
structure TargetFile where
  qc_flag : Option String
  udf : List (String × Val)
  deriving DecidableEq, Repr

/-- The per-sample branch of `main` in `scripts/copy_qubit.py` once a
`Sample Concentration` entry `(conc, unit)` was found: `Out Of Range`
sets the qc flag to FAILED and writes no UDF; otherwise the qc flag is
PASSED, the reading is divided by 1000 when the unit is `ng/mL`, and the
`Concentration` and `Conc. Units` UDFs are written. -/
def qubitProcessSample (tf : TargetFile) (conc : Conc) (unit : String) : TargetFile :=
  match conc with
  | Conc.outOfRange => { tf with qc_flag := Option.some "FAILED" }
  | Conc.numVal q =>
    { tf with
      qc_flag := Option.some "PASSED"
      udf := udfSet (udfSet tf.udf "Concentration"
          (Val.num (if unit = "ng/mL" then q / 1000 else q)))
        "Conc. Units" (Val.str "ng/ul") }

/-! Concrete fixtures used by the witnesses. -/

/-- A source artifact carrying a `Concentration` UDF. -/
def srcEnt : Entity :=
  { id := "art1", name := "ArtOne", uri := "artifacts", fieldAttr := Option.none,
    udf := [("Concentration", Val.str "12.5")] }

/-- A destination sample with an empty UDF mapping. -/
def dstEnt : Entity :=
  { id := "smp1", name := "SampleOne", uri := "samples", fieldAttr := Option.none,
    udf := [] }

/-- A project entity whose only native data is its `id` and `name`. -/
def projEnt : Entity :=
  { id := "p1", name := "Proj1", uri := "projects", fieldAttr := Option.none,
    udf := [] }

/-- A fixed local time for the witnesses. -/
def tm0 : Tm :=
  { year := 2014, mon := 3, mday := 5, hour := 9, min := 7, sec := 2 }

/-! Helper lemmas about the UDF association list. -/

/-- Writing a key makes it look up to the written value. -/
theorem udfSet_lookup_self (u : List (String × Val)) (k : String) (v : Val) :
    (udfSet u k v).lookup k = Option.some v := by
  simp [udfSet, List.lookup]

/-- Erasing the first entry of another key does not change a lookup. -/
theorem lookup_eraseP_ne (u : List (String × Val)) (k k2 : String) (h : ¬ k = k2) :
    (u.eraseP (fun p => p.1 == k2)).lookup k = u.lookup k := by
  induction u with
  | nil => rfl
  | cons hd tl ih =>
    rcases hd with ⟨a, v⟩
    by_cases ha : a = k2
    · subst ha
      have hk : (k == a) = false := beq_eq_false_iff_ne.mpr h
      simp [List.eraseP_cons, List.lookup, hk]
    · have ha2 : ((a, v).1 == k2) = false := beq_eq_false_iff_ne.mpr ha
      by_cases hk : k = a
      · subst hk
        simp [List.eraseP_cons, ha2, List.lookup]
      · have hk2 : (k == a) = false := beq_eq_false_iff_ne.mpr hk
        simp [List.eraseP_cons, ha2, List.lookup, hk2, ih]

/-- Writing one key then another leaves the first key's lookup at its
written value when the keys differ. -/
theorem udfSet_udfSet_lookup_fst (u : List (String × Val)) (k k2 : String)
    (v v2 : Val) (h : ¬ k = k2) :
    (udfSet (udfSet u k v) k2 v2).lookup k = Option.some v := by
  have hk : (k == k2) = false := beq_eq_false_iff_ne.mpr h
  simp [udfSet, List.lookup, List.eraseP_cons, hk]

/-- `copy_udf` returns `False` exactly when the two construction-time
snapshots are equal, whatever the environment does. -/
theorem copy_udf_ret_false_iff (cf : CopyField) (b : Bool) (now : Tm)
    (pr : PutResult) :
    (cf.copy_udf b now pr).outcome = Outcome.ret false ↔
      cf.s_field = cf.old_dest_udf := by
  by_cases hc : cf.s_field = cf.old_dest_udf
  · simp [CopyField.copy_udf, hc]
  · cases pr <;> simp [CopyField.copy_udf, CopyField.set_udf, hc]

/-- C1: when the construction-time snapshots of the source field and of the
prior destination value are equal (both-absent included), `copy_udf`
returns `False`, leaves the destination entity unchanged, performs no
`put` call, and appends no changelog line. -/
theorem copy_udf_equal_snapshots_noop (cf : CopyField) (b : Bool) (now : Tm)
    (pr : PutResult) (heq : cf.s_field = cf.old_dest_udf) :
    (cf.copy_udf b now pr).outcome = Outcome.ret false ∧
    (cf.copy_udf b now pr).dest = cf.d_elt ∧
    (cf.copy_udf b now pr).changelogLines = [] ∧
    (cf.copy_udf b now pr).events = [] := by
  simp [CopyField.copy_udf, heq]

/-- C1 witness: both fields absent on concrete entities. -/
theorem copy_udf_equal_snapshots_noop_witness :
    ((CopyField.init dstEnt projEnt "Concentration" Option.none).copy_udf true tm0
        PutResult.ok).outcome = Outcome.ret false ∧
    ((CopyField.init dstEnt projEnt "Concentration" Option.none).copy_udf true tm0
        PutResult.ok).dest =
      (CopyField.init dstEnt projEnt "Concentration" Option.none).d_elt ∧
    ((CopyField.init dstEnt projEnt "Concentration" Option.none).copy_udf true tm0
        PutResult.ok).changelogLines = [] ∧
    ((CopyField.init dstEnt projEnt "Concentration" Option.none).copy_udf true tm0
        PutResult.ok).events = [] :=
  copy_udf_equal_snapshots_noop
    (CopyField.init dstEnt projEnt "Concentration" Option.none) true tm0
    PutResult.ok (by decide)

/-- C2: on an entity whose native attribute `name` holds "Proj1" and whose
UDF mapping is empty, `_get_field` applied to the field name "name"
yields the absent sentinel rather than the native attribute's value: the
source evaluates `elt.field`, the attribute literally named "field",
instead of the attribute named by its argument, while the spec's
`read_field` falls back to the same-named native attribute. -/
theorem get_field_ignores_named_native_attribute :
    CopyField.get_field projEnt "name" = Val.pyNone ∧
    projEnt.name = "Proj1" ∧
    read_field_spec projEnt "name" = Val.str "Proj1" :=
  ⟨rfl, rfl, rfl⟩

/-- C6: a numeric Qubit reading with unit `ng/mL` is stored in the
`Concentration` UDF divided by 1000 with `Conc. Units` set to `ng/ul`
(concretely, 500 is stored as 1/2); an `Out Of Range` reading sets the qc
flag to FAILED and writes no UDF. -/
theorem qubit_unit_normalization (tf : TargetFile) (q : ℚ) (unit : String) :
    ((qubitProcessSample tf (Conc.numVal q) "ng/mL").udf.lookup "Concentration" =
        Option.some (Val.num (q / 1000)) ∧
      (qubitProcessSample tf (Conc.numVal q) "ng/mL").udf.lookup "Conc. Units" =
        Option.some (Val.str "ng/ul")) ∧
    ((qubitProcessSample tf Conc.outOfRange unit).qc_flag = Option.some "FAILED" ∧
      (qubitProcessSample tf Conc.outOfRange unit).udf = tf.udf) ∧
    (qubitProcessSample (TargetFile.mk Option.none []) (Conc.numVal 500)
        "ng/mL").udf.lookup "Concentration" = Option.some (Val.num (1 / 2)) := by
  refine ⟨⟨?_, ?_⟩, ⟨rfl, rfl⟩, ?_⟩
  · simp only [qubitProcessSample, if_pos rfl]
    exact udfSet_udfSet_lookup_fst tf.udf "Concentration" "Conc. Units" _ _ (by decide)
  · simp only [qubitProcessSample]
    exact udfSet_lookup_self _ _ _
  · have h5 : (500 : ℚ) / 1000 = 1 / 2 := by norm_num
    simp [qubitProcessSample, udfSet, List.lookup, List.eraseP, h5]

/-- C7: when the destination udf name is not supplied, it resolves to the
source field name: the prior destination value is read at the source
field name, and a value-changing copy writes the destination UDF under
the source field name. -/
theorem d_udf_name_defaults_to_source (s d : Entity) (n : String) (b : Bool)
    (now : Tm) :
    (CopyField.init s d n Option.none).d_udf_name = n ∧
    (CopyField.init s d n Option.none).old_dest_udf = CopyField.get_field d n ∧
    ((CopyField.init s d n Option.none).s_field ≠ CopyField.get_field d n →
      ((CopyField.init s d n Option.none).copy_udf b now PutResult.ok).dest.udf.lookup
          n = Option.some (CopyField.get_field s n)) := by
  refine ⟨rfl, rfl, fun hdiff => ?_⟩
  have hdiff2 : ¬ CopyField.get_field s n = CopyField.get_field d n := by
    simpa [CopyField.init, resolveDUdfName] using hdiff
  have : ((CopyField.init s d n Option.none).copy_udf b now PutResult.ok).dest.udf =
      udfSet d.udf n (CopyField.get_field s n) := by
    simp [CopyField.copy_udf, CopyField.set_udf, CopyField.init, resolveDUdfName,
      hdiff2]
  rw [this]
  exact udfSet_lookup_self _ _ _

/-- C7 witness: source has the UDF, destination does not, so the write
lands under the source field name. -/
theorem d_udf_name_defaults_to_source_witness :
    ((CopyField.init srcEnt dstEnt "Concentration" Option.none).copy_udf true tm0
        PutResult.ok).dest.udf.lookup "Concentration" =
      Option.some (CopyField.get_field srcEnt "Concentration") :=
  (d_udf_name_defaults_to_source srcEnt dstEnt "Concentration" true tm0).2.2
    (by decide)

/-- C3: a persist failing with `TypeError` or `HTTPError` is reported on
stderr and terminates the process with exit status -1, and `copy_udf`
returns `True` only when the persist succeeded — there is no path
returning `True` after a failed persist. -/
theorem copy_udf_true_implies_persist_ok (cf : CopyField) (b : Bool) (now : Tm)
    (m : String) (hdiff : cf.s_field ≠ cf.old_dest_udf) :
    ((cf.copy_udf b now (PutResult.typeError m)).outcome = Outcome.exited (-1) ∧
      Event.stderrLine ("Error while updating element: " ++ m) ∈
        (cf.copy_udf b now (PutResult.typeError m)).events) ∧
    ((cf.copy_udf b now (PutResult.httpError m)).outcome = Outcome.exited (-1) ∧
      Event.stderrLine ("Error while updating element: " ++ m) ∈
        (cf.copy_udf b now (PutResult.httpError m)).events) ∧
    (∀ (cg : CopyField) (b2 : Bool) (now2 : Tm) (pr : PutResult),
      (cg.copy_udf b2 now2 pr).outcome = Outcome.ret true → pr = PutResult.ok) := by
  refine ⟨⟨?_, ?_⟩, ⟨?_, ?_⟩, ?_⟩
  · simp [CopyField.copy_udf, CopyField.set_udf, hdiff]
  · cases b <;>
      simp [CopyField.copy_udf, CopyField.set_udf, CopyField.log_before_change, hdiff]
  · simp [CopyField.copy_udf, CopyField.set_udf, hdiff]
  · cases b <;>
      simp [CopyField.copy_udf, CopyField.set_udf, CopyField.log_before_change, hdiff]
  · intro cg b2 now2 pr h
    cases pr with
    | ok => rfl
    | typeError mm =>
      by_cases hc : cg.s_field = cg.old_dest_udf <;>
        simp [CopyField.copy_udf, CopyField.set_udf, hc] at h
    | httpError mm =>
      by_cases hc : cg.s_field = cg.old_dest_udf <;>
        simp [CopyField.copy_udf, CopyField.set_udf, hc] at h

/-- C3 witness: a concrete copy whose persist is refused by the remote
system exits with status -1. -/
theorem copy_udf_true_implies_persist_ok_witness :
    ((CopyField.init srcEnt dstEnt "Concentration" Option.none).copy_udf true tm0
        (PutResult.httpError "boom")).outcome = Outcome.exited (-1) :=
  (copy_udf_true_implies_persist_ok
      (CopyField.init srcEnt dstEnt "Concentration" Option.none) true tm0 "boom"
      (by decide)).2.1.1

/-- C4: when the construction-time snapshots differ and the persist
succeeds, one `copy_udf` call appends exactly one changelog line (when a
sink is given), performs exactly one `put` call, writes the source
snapshot into the destination UDF mapping under the destination udf
name, and returns `True`. -/
theorem copy_udf_changed_effects (cf : CopyField) (b : Bool) (now : Tm)
    (hdiff : cf.s_field ≠ cf.old_dest_udf) :
    (b = true → (cf.copy_udf b now PutResult.ok).changelogLines.length = 1) ∧
    (cf.copy_udf b now PutResult.ok).events.countP Event.isPut = 1 ∧
    (cf.copy_udf b now PutResult.ok).dest.udf.lookup cf.d_udf_name =
      Option.some cf.s_field ∧
    (cf.copy_udf b now PutResult.ok).outcome = Outcome.ret true := by
  refine ⟨fun hb => ?_, ?_, ?_, ?_⟩
  · subst hb
    simp [CopyField.copy_udf, CopyField.set_udf, CopyField.log_before_change, hdiff]
  · cases b <;>
      simp [CopyField.copy_udf, CopyField.set_udf, CopyField.log_before_change,
        hdiff, Event.isPut, List.countP_cons, List.countP_append]
  · have hu : (cf.copy_udf b now PutResult.ok).dest.udf =
        udfSet cf.d_elt.udf cf.d_udf_name cf.s_field := by
      simp [CopyField.copy_udf, CopyField.set_udf, hdiff]
    rw [hu]
    exact udfSet_lookup_self _ _ _
  · simp [CopyField.copy_udf, CopyField.set_udf, hdiff]

/-- C4 witness: a concrete value-changing copy with a changelog sink. -/
theorem copy_udf_changed_effects_witness :
    ((CopyField.init srcEnt dstEnt "Concentration" Option.none).copy_udf true tm0
        PutResult.ok).changelogLines.length = 1 ∧
    ((CopyField.init srcEnt dstEnt "Concentration" Option.none).copy_udf true tm0
        PutResult.ok).events.countP Event.isPut = 1 :=
  ⟨(copy_udf_changed_effects
      (CopyField.init srcEnt dstEnt "Concentration" Option.none) true tm0
      (by decide)).1 rfl,
   (copy_udf_changed_effects
      (CopyField.init srcEnt dstEnt "Concentration" Option.none) true tm0
      (by decide)).2.1⟩

/-- C5: the single changelog line of a value-changing copy is literally the
local timestamp rendered `YYYY-MM-DD HH:MM:SS`, then `: udf: `, the source
field name, ` on `, the destination name, ` (id: `, the destination id,
`) from `, the prior destination snapshot, ` to `, the source snapshot,
and `.` with a trailing newline. -/
theorem changelog_line_format (cf : CopyField) (now : Tm)
    (hdiff : cf.s_field ≠ cf.old_dest_udf) :
    (cf.copy_udf true now PutResult.ok).changelogLines =
      [toString now.year ++ "-" ++ pad2 now.mon ++ "-" ++ pad2 now.mday ++ " " ++
        pad2 now.hour ++ ":" ++ pad2 now.min ++ ":" ++ pad2 now.sec ++
        ": udf: " ++ cf.s_field_name ++ " on " ++ cf.d_elt.name ++
        " (id: " ++ cf.d_elt.id ++ ") from " ++ Val.pyStr cf.old_dest_udf ++
        " to " ++ Val.pyStr cf.s_field ++ ".\n"] := by
  simp [CopyField.copy_udf, CopyField.set_udf, CopyField.log_before_change, hdiff,
    CopyField.changelogLine, CopyField.current_time, strftimeYmdHMS]

/-- C5 witness: the changelog line of a concrete copy at a fixed local
time. -/
theorem changelog_line_format_witness :
    ((CopyField.init srcEnt dstEnt "Concentration" Option.none).copy_udf true tm0
        PutResult.ok).changelogLines =
      [toString tm0.year ++ "-" ++ pad2 tm0.mon ++ "-" ++ pad2 tm0.mday ++ " " ++
        pad2 tm0.hour ++ ":" ++ pad2 tm0.min ++ ":" ++ pad2 tm0.sec ++
        ": udf: " ++
        (CopyField.init srcEnt dstEnt "Concentration" Option.none).s_field_name ++
        " on " ++
        (CopyField.init srcEnt dstEnt "Concentration" Option.none).d_elt.name ++
        " (id: " ++
        (CopyField.init srcEnt dstEnt "Concentration" Option.none).d_elt.id ++
        ") from " ++
        Val.pyStr
          (CopyField.init srcEnt dstEnt "Concentration" Option.none).old_dest_udf ++
        " to " ++
        Val.pyStr
          (CopyField.init srcEnt dstEnt "Concentration" Option.none).s_field ++
        ".\n"] :=
  changelog_line_format (CopyField.init srcEnt dstEnt "Concentration" Option.none)
    tm0 (by decide)

/-- C8: construction performs exactly the two field reads and nothing else;
no `copy_udf` call ever performs a field read; and the branch taken by
`copy_udf` depends only on the construction-time snapshots, so instances
with equal snapshots — in particular repeated calls on one instance —
evaluate the same comparison. -/
theorem construction_reads_only_and_snapshot_comparison (s d : Entity) (n : String)
    (odn : Option String) :
    CopyField.initTrace s d n odn =
      [Event.readField s.id n, Event.readField d.id (resolveDUdfName n odn)] ∧
    (∀ (cf : CopyField) (b : Bool) (now : Tm) (pr : PutResult),
      (cf.copy_udf b now pr).events.filter Event.isRead = []) ∧
    (∀ (cf cg : CopyField) (b : Bool) (now : Tm) (pr : PutResult),
      cf.s_field = cg.s_field → cf.old_dest_udf = cg.old_dest_udf →
      ((cf.copy_udf b now pr).outcome = Outcome.ret false ↔
        (cg.copy_udf b now pr).outcome = Outcome.ret false)) := by
  refine ⟨rfl, ?_, ?_⟩
  · intro cf b now pr
    by_cases hc : cf.s_field = cf.old_dest_udf
    · simp [CopyField.copy_udf, hc]
    · cases pr <;> cases b <;>
        simp [CopyField.copy_udf, CopyField.set_udf, CopyField.log_before_change,
          hc, Event.isRead]
  · intro cf cg b now pr h1 h2
    rw [copy_udf_ret_false_iff, copy_udf_ret_false_iff, h1, h2]

/-- C8 witness: two instances sharing the construction-time snapshots but
pointing at different destination entities take the same branch. -/
theorem construction_reads_only_and_snapshot_comparison_witness :
    (((CopyField.init srcEnt dstEnt "Concentration" Option.none).copy_udf true tm0
        PutResult.ok).outcome = Outcome.ret false ↔
      ((CopyField.mk srcEnt projEnt "Concentration" "Concentration"
          (CopyField.init srcEnt dstEnt "Concentration" Option.none).s_field
          (CopyField.init srcEnt dstEnt "Concentration" Option.none).old_dest_udf).copy_udf
          true tm0 PutResult.ok).outcome = Outcome.ret false) :=
  (construction_reads_only_and_snapshot_comparison srcEnt dstEnt "Concentration"
      Option.none).2.2
    (CopyField.init srcEnt dstEnt "Concentration" Option.none)
    (CopyField.mk srcEnt projEnt "Concentration" "Concentration"
      (CopyField.init srcEnt dstEnt "Concentration" Option.none).s_field
      (CopyField.init srcEnt dstEnt "Concentration" Option.none).old_dest_udf)
    true tm0 PutResult.ok rfl rfl

/-- C9: when the source snapshot is the absent sentinel and the prior
destination snapshot is a different, present value, `copy_udf` writes the
sentinel into the destination UDF mapping, calls `put`, and returns
`True` — the sentinel is an ordinary value, not a skip. -/
theorem copy_udf_writes_sentinel (cf : CopyField) (b : Bool) (now : Tm)
    (hs : cf.s_field = Val.pyNone) (hd : cf.old_dest_udf ≠ Val.pyNone) :
    (cf.copy_udf b now PutResult.ok).dest.udf.lookup cf.d_udf_name =
      Option.some Val.pyNone ∧
    Event.put cf.d_elt.id ∈ (cf.copy_udf b now PutResult.ok).events ∧
    (cf.copy_udf b now PutResult.ok).outcome = Outcome.ret true := by
  have hdiff : cf.s_field ≠ cf.old_dest_udf := by
    rw [hs]
    exact fun h => hd h.symm
  refine ⟨?_, ?_, ?_⟩
  · have hu : (cf.copy_udf b now PutResult.ok).dest.udf =
        udfSet cf.d_elt.udf cf.d_udf_name cf.s_field := by
      simp [CopyField.copy_udf, CopyField.set_udf, hdiff]
    rw [hu, hs]
    exact udfSet_lookup_self _ _ _
  · cases b <;>
      simp [CopyField.copy_udf, CopyField.set_udf, CopyField.log_before_change, hdiff]
  · simp [CopyField.copy_udf, CopyField.set_udf, hdiff]

/-- C9 witness: copying an absent source field onto a destination that
carries a value overwrites it with the sentinel. -/
theorem copy_udf_writes_sentinel_witness :
    ((CopyField.init dstEnt srcEnt "Concentration" Option.none).copy_udf true tm0
        PutResult.ok).dest.udf.lookup
        (CopyField.init dstEnt srcEnt "Concentration" Option.none).d_udf_name =
      Option.some Val.pyNone :=
  (copy_udf_writes_sentinel
      (CopyField.init dstEnt srcEnt "Concentration" Option.none) true tm0
      (by decide) (by decide)).1

/-- C10: with a changelog sink and differing snapshots, the changelog
append and the first informational record precede the `put` attempt in
the event trace; when the persist fails the changelog line is already
appended and is not undone, and the process exits. -/
theorem changelog_written_before_failed_persist (cf : CopyField) (now : Tm)
    (m : String) (hdiff : cf.s_field ≠ cf.old_dest_udf) :
    (cf.copy_udf true now (PutResult.httpError m)).events =
      [Event.changelog (cf.changelogLine (CopyField.current_time now)),
       Event.logInfo cf.copyingMsg,
       Event.writeUdf cf.d_elt.id cf.d_udf_name cf.s_field,
       Event.put cf.d_elt.id,
       Event.stderrLine ("Error while updating element: " ++ m)] ∧
    (cf.copy_udf true now (PutResult.httpError m)).changelogLines =
      [cf.changelogLine (CopyField.current_time now)] ∧
    (cf.copy_udf true now (PutResult.httpError m)).outcome = Outcome.exited (-1) ∧
    (cf.copy_udf true now PutResult.ok).events =
      [Event.changelog (cf.changelogLine (CopyField.current_time now)),
       Event.logInfo cf.copyingMsg,
       Event.writeUdf cf.d_elt.id cf.d_udf_name cf.s_field,
       Event.put cf.d_elt.id,
       Event.logInfo cf.updatedMsg] := by
  refine ⟨?_, ?_, ?_, ?_⟩ <;>
    simp [CopyField.copy_udf, CopyField.set_udf, CopyField.log_before_change, hdiff]

/-- C10 witness: a concrete failing persist still leaves its changelog
line appended. -/
theorem changelog_written_before_failed_persist_witness :
    ((CopyField.init srcEnt dstEnt "Concentration" Option.none).copy_udf true tm0
        (PutResult.httpError "boom")).changelogLines =
      [(CopyField.init srcEnt dstEnt "Concentration" Option.none).changelogLine
        (CopyField.current_time tm0)] ∧
    ((CopyField.init srcEnt dstEnt "Concentration" Option.none).copy_udf true tm0
        (PutResult.httpError "boom")).outcome = Outcome.exited (-1) :=
  ⟨(changelog_written_before_failed_persist
      (CopyField.init srcEnt dstEnt "Concentration" Option.none) tm0 "boom"
      (by decide)).2.1,
   (changelog_written_before_failed_persist
      (CopyField.init srcEnt dstEnt "Concentration" Option.none) tm0 "boom"
      (by decide)).2.2.1⟩

end Genologics
